import Mathlib

/-!
Verification of the FinSight real-time price streaming client
(`frontend/src/websocket.ts`: class `WebSocketManager`, and the consumer
adapter hooks `useRealtimePrice` / `useMarketStatus`).

The embedding is a small operational model. The manager's fields are the
source fields (`ws`, `reconnectDelay`, `heartbeatInterval`,
`reconnectTimeout`, `subscribedSymbols`, `connected`, `onPriceUpdate`,
`onMarketStatus`).  WebSocket objects are modelled by indices into a table
of ready states (`sockets`); `setTimeout` / `setInterval` handles are
modelled by fresh numeric ids together with a list of still-pending ids, so
that `clearTimeout` cancels exactly the handle held in the field.
`schedDelays` is a log of the durations passed to `setTimeout` for the
reconnect timer (the source has no other observable for these durations).
Callback slots (`onPriceUpdate` / `onMarketStatus`) hold the chain of
closures the hooks install; each hook closure first calls the previously
installed callback (`prev`) and then applies its own filter, which is
exactly the shape of the inductive chain types below.

Asynchronous behaviour (socket open/close/message events, timer firings)
is modelled as an event-step relation: `step` applies one API call or one
runtime event, returning the new state and the frames sent to the feed.
-/

namespace FinSight

/-- JSON values as delivered by `JSON.parse` (numbers restricted to the
integers actually used by the traffic modelled here; no arithmetic is ever
performed on them). -/
inductive Json where
  | null
  | bool (b : Bool)
  | num (n : Int)
  | str (s : String)
  | arr (elems : List Json)
  | obj (fields : List (String × Json))

/-- JavaScript property access `v.k` : `undefined` (here `none`) on
non-objects and missing keys. -/
def jget : Json → String → Option Json
  | .obj fields, k => fields.lookup k
  | _, _ => none

/-- JavaScript `x === "s"` where `x` may be `undefined`. -/
def isStr : Option Json → String → Bool
  | some (.str t), s => t == s
  | _, _ => false

/-- `WebSocket.readyState`. -/
inductive SockState where
  | connecting
  | opened
  | closing
  | closed
deriving DecidableEq

/-- A ready state in which the transport is live (open or opening). -/
def liveState : SockState → Bool
  | .connecting => true
  | .opened => true
  | _ => false

/-- `WebSocket.close()` on a socket in the given state. -/
def closeSock : SockState → SockState
  | .connecting => .closing
  | .opened => .closing
  | s => s

/-- The client→server frames of the wire protocol. -/
inductive Frame where
  | subscribe (symbols : List String)
  | unsubscribe (symbols : List String)
  | ping
deriving DecidableEq

/-- The state of one `useRealtimePrice` hook: the latest record produced by
`setData` (fields are whatever values the spread of the inbound `data`
yields, i.e. arbitrary JSON or `undefined`). -/
structure RealtimePriceData where
  price : Option Json
  change : Option Json
  volume : Option Json
  connected : Bool

/-- One per-symbol consumer adapter (a mounted `useRealtimePrice` hook). -/
structure PriceAdapterState where
  symbol : String
  data : RealtimePriceData
  active : Bool

/-- One market-status consumer adapter (a mounted `useMarketStatus` hook);
`status` starts as the string "unknown". -/
structure MarketStatusState where
  status : Json

/-- The chain of closures installed in the single `onPriceUpdate` slot.
`nil` is the initial `null`; `price prev a` is the closure installed by
hook `a`, which calls `prev` first and then applies its own filter. -/
inductive PUChain where
  | nil
  | price (prev : PUChain) (adapter : Nat)

def PUChain.isNil : PUChain → Bool
  | .nil => true
  | _ => false

/-- The chain of closures installed in the single `onMarketStatus` slot. -/
inductive MSChain where
  | nil
  | status (prev : MSChain) (adapter : Nat)

def MSChain.isNil : MSChain → Bool
  | .nil => true
  | _ => false

/-- The `WebSocketManager` singleton, together with the runtime tables
(socket ready states, pending timer ids) needed to interpret it. -/
structure WebSocketManager where
  sockets : List SockState
  ws : Option Nat
  reconnectDelay : Nat
  heartbeatInterval : Option Nat
  reconnectTimeout : Option Nat
  liveTimeouts : List Nat
  liveIntervals : List Nat
  nextTimerId : Nat
  subscribedSymbols : List String
  connected : Bool
  onPriceUpdate : PUChain
  onMarketStatus : MSChain
  schedDelays : List Nat

/-- `this.ws?.readyState`. -/
def WebSocketManager.readyState (m : WebSocketManager) : Option SockState :=
  m.ws.bind m.sockets.get?

/-- `isConnected()`. -/
def WebSocketManager.isConnected (m : WebSocketManager) : Bool :=
  m.connected

/-- `_send(msg)`: transmits only when `this.ws?.readyState === OPEN`. -/
def WebSocketManager.sendFrame (m : WebSocketManager) (f : Frame) : List Frame :=
  if m.readyState = some .opened then [f] else []

/-- `connect()`: no-op when the current socket is open or connecting,
otherwise `this.ws = new WebSocket(url)` (a fresh connecting socket). -/
def WebSocketManager.connect (m : WebSocketManager) : WebSocketManager :=
  if m.readyState = some .opened ∨ m.readyState = some .connecting then m
  else { m with sockets := m.sockets ++ [.connecting], ws := some m.sockets.length }

/-- `disconnect()`: clear the pending reconnect timeout and heartbeat
interval, `this.ws?.close()`, null the handle, clear `connected`. -/
def WebSocketManager.disconnect (m : WebSocketManager) : WebSocketManager :=
  let lt := match m.reconnectTimeout with
    | some id => m.liveTimeouts.erase id
    | none => m.liveTimeouts
  let li := match m.heartbeatInterval with
    | some id => m.liveIntervals.erase id
    | none => m.liveIntervals
  let socks := match m.ws with
    | some i =>
      match m.sockets.get? i with
      | some st => m.sockets.set i (closeSock st)
      | none => m.sockets
    | none => m.sockets
  { m with liveTimeouts := lt, liveIntervals := li, sockets := socks,
           ws := none, connected := false }

/-- JavaScript `Set.add`: insertion-ordered, deduplicated. -/
def jsSetAdd (l : List String) (s : String) : List String :=
  if s ∈ l then l else l ++ [s]

/-- `subscribe(symbols)`: add every symbol to the set; if `connected`,
`_send` one batched subscribe frame listing the symbols passed.  (`_send`
reads only `ws` and the socket table, which the set-add leaves untouched,
so it is applied to `m` directly.) -/
def WebSocketManager.subscribe (m : WebSocketManager) (symbols : List String) :
    WebSocketManager × List Frame :=
  ({ m with subscribedSymbols := symbols.foldl jsSetAdd m.subscribedSymbols },
   if m.connected then m.sendFrame (.subscribe symbols) else [])

/-- `unsubscribe(symbols)`: delete every symbol from the set; if
`connected`, `_send` one batched unsubscribe frame. -/
def WebSocketManager.unsubscribe (m : WebSocketManager) (symbols : List String) :
    WebSocketManager × List Frame :=
  ({ m with subscribedSymbols := symbols.foldl List.erase m.subscribedSymbols },
   if m.connected then m.sendFrame (.unsubscribe symbols) else [])

/-- The `onopen` handler body: set `connected`, reset the backoff delay to
the floor, replay the full subscription set when non-empty, start the
heartbeat interval.  (`_send` reads only `ws` and the socket table, which
the handler does not modify.) -/
def WebSocketManager.onopenH (m : WebSocketManager) : WebSocketManager × List Frame :=
  ({ m with connected := true, reconnectDelay := 1000,
            heartbeatInterval := some m.nextTimerId,
            liveIntervals := m.nextTimerId :: m.liveIntervals,
            nextTimerId := m.nextTimerId + 1 },
   if 0 < m.subscribedSymbols.length
   then m.sendFrame (.subscribe m.subscribedSymbols) else [])

/-- The `onclose` handler body: clear `connected`, stop the heartbeat, and
schedule the reconnect timeout with the current backoff delay (the duration
is logged in `schedDelays`). -/
def WebSocketManager.oncloseH (m : WebSocketManager) : WebSocketManager :=
  let li := match m.heartbeatInterval with
    | some id => m.liveIntervals.erase id
    | none => m.liveIntervals
  let id := m.nextTimerId
  { m with connected := false, liveIntervals := li,
           reconnectTimeout := some id, liveTimeouts := id :: m.liveTimeouts,
           schedDelays := m.schedDelays ++ [m.reconnectDelay],
           nextTimerId := id + 1 }

/-- The body of the reconnect timeout: double the delay (capped at 30000)
and call `connect()`. -/
def WebSocketManager.reconnectBody (m : WebSocketManager) : WebSocketManager :=
  WebSocketManager.connect { m with reconnectDelay := min (m.reconnectDelay * 2) 30000 }

/-- The whole streaming client: the manager singleton plus the states of
the mounted consumer adapters (whose `setData` the callback chains drive). -/
structure Client where
  mgr : WebSocketManager
  priceAdapters : List PriceAdapterState
  statusAdapters : List MarketStatusState

/-- `sym === symbolRef.current` in the `useRealtimePrice` closure. -/
def symMatches : Option Json → String → Bool
  | some (.str s), t => s == t
  | _, _ => false

/-- `setData({ ...update, connected: true })`: the record is rebuilt from
the spread of `update` (fields are `undefined` when `update` is not an
object or lacks them). -/
def spreadUpdate (update : Option Json) : RealtimePriceData :=
  { price := update.bind (jget · "price"),
    change := update.bind (jget · "change"),
    volume := update.bind (jget · "volume"),
    connected := true }

/-- The body of one `useRealtimePrice` closure after its `prev` call:
`if (sym === symbolRef.current) setData({ ...update, connected: true })`. -/
def applyPriceCB (aid : Nat) (sym upd : Option Json)
    (t : List PriceAdapterState) : List PriceAdapterState :=
  match t.get? aid with
  | some a =>
    if symMatches sym a.symbol then t.set aid { a with data := spreadUpdate upd } else t
  | none => t

/-- Run the `onPriceUpdate` callback chain: each closure calls the
previously installed callback first, then applies its own filter. -/
def runPU : PUChain → Option Json → Option Json → List PriceAdapterState →
    List PriceAdapterState
  | .nil, _, _, t => t
  | .price prev aid, sym, upd, t => applyPriceCB aid sym upd (runPU prev sym upd t)

/-- The body of one `useMarketStatus` closure after its `prev` call:
`setStatus(s)`. -/
def applyStatusCB (aid : Nat) (s : Json)
    (t : List MarketStatusState) : List MarketStatusState :=
  match t.get? aid with
  | some a => t.set aid { a with status := s }
  | none => t

/-- Run the `onMarketStatus` callback chain. -/
def runMS : MSChain → Json → List MarketStatusState → List MarketStatusState
  | .nil, _, t => t
  | .status prev aid, s, t => applyStatusCB aid s (runMS prev s t)

/-- The `onmessage` handler: `JSON.parse` failures (`none`) are swallowed
by the `catch`; a `price_update` dispatches the price chain with
`msg.symbol` and `msg.data`; a `market_status` dispatches the status chain
with `msg.data?.status ?? "unknown"`; anything else is ignored. -/
def onmessageH (c : Client) (data : Option Json) : Client :=
  match data with
  | none => c
  | some msg =>
    if isStr (jget msg "type") "price_update" && !c.mgr.onPriceUpdate.isNil then
      { c with priceAdapters :=
          runPU c.mgr.onPriceUpdate (jget msg "symbol") (jget msg "data") c.priceAdapters }
    else if isStr (jget msg "type") "market_status" && !c.mgr.onMarketStatus.isNil then
      let sArg : Json :=
        match jget msg "data" with
        | some d =>
          match jget d "status" with
          | some .null => .str "unknown"
          | some v => v
          | none => .str "unknown"
        | none => .str "unknown"
      { c with statusAdapters := runMS c.mgr.onMarketStatus sArg c.statusAdapters }
    else c

/-- A close event fires on a socket that was connecting (failed open),
open (dropped), or closing (close handshake finished) — never on one that
is already closed. -/
def canFireClose : Option SockState → Bool
  | some .connecting => true
  | some .opened => true
  | some .closing => true
  | _ => false

/-- One API call or runtime event applied to the client.  Socket events
carry the index of the socket they fire on; timer events carry the id of
the timer that fires.  Events whose precondition does not hold (an open
event on a socket that is not connecting, a firing of a cancelled timer)
cannot occur and leave the state unchanged. -/
inductive Event where
  | apiConnect
  | apiDisconnect
  | apiSubscribe (symbols : List String)
  | apiUnsubscribe (symbols : List String)
  | activatePrice (symbol : String)
  | deactivatePrice (adapter : Nat)
  | activateStatus
  | sockOpen (sock : Nat)
  | sockClosed (sock : Nat)
  | sockError (sock : Nat)
  | message (sock : Nat) (data : Option Json)
  | timerFire (id : Nat)
  | heartbeatTick (id : Nat)

/-- The step function: apply one event, returning the new client state and
the frames sent to the feed. -/
def step (c : Client) : Event → Client × List Frame
  | .apiConnect => ({ c with mgr := c.mgr.connect }, [])
  | .apiDisconnect => ({ c with mgr := c.mgr.disconnect }, [])
  | .apiSubscribe syms =>
    let r := c.mgr.subscribe syms
    ({ c with mgr := r.1 }, r.2)
  | .apiUnsubscribe syms =>
    let r := c.mgr.unsubscribe syms
    ({ c with mgr := r.1 }, r.2)
  | .activatePrice s =>
    let m := c.mgr.connect
    let m := { m with onPriceUpdate := .price m.onPriceUpdate c.priceAdapters.length }
    let r := m.subscribe [s]
    ({ c with
       mgr := r.1,
       priceAdapters := c.priceAdapters ++
         [{ symbol := s,
            data := { price := none, change := none, volume := none,
                      connected := r.1.isConnected },
            active := true }] }, r.2)
  | .deactivatePrice aid =>
    match c.priceAdapters.get? aid with
    | some a =>
      if a.active then
        let r := c.mgr.unsubscribe [a.symbol]
        ({ c with
           mgr := r.1,
           priceAdapters := c.priceAdapters.set aid { a with active := false } }, r.2)
      else (c, [])
    | none => (c, [])
  | .activateStatus =>
    let m := c.mgr.connect
    let m := { m with onMarketStatus := .status m.onMarketStatus c.statusAdapters.length }
    ({ c with mgr := m, statusAdapters := c.statusAdapters ++ [{ status := .str "unknown" }] }, [])
  | .sockOpen i =>
    if c.mgr.sockets.get? i = some .connecting then
      let r := WebSocketManager.onopenH { c.mgr with sockets := c.mgr.sockets.set i .opened }
      ({ c with mgr := r.1 }, r.2)
    else (c, [])
  | .sockClosed i =>
    if canFireClose (c.mgr.sockets.get? i) then
      let m := WebSocketManager.oncloseH { c.mgr with sockets := c.mgr.sockets.set i .closed }
      ({ c with mgr := m }, [])
    else (c, [])
  | .sockError _ => (c, [])
  | .message i data =>
    if c.mgr.sockets.get? i = some .opened then (onmessageH c data, []) else (c, [])
  | .timerFire id =>
    if id ∈ c.mgr.liveTimeouts then
      let m := WebSocketManager.reconnectBody
        { c.mgr with liveTimeouts := c.mgr.liveTimeouts.erase id }
      ({ c with mgr := m }, [])
    else (c, [])
  | .heartbeatTick id =>
    if id ∈ c.mgr.liveIntervals then (c, c.mgr.sendFrame .ping) else (c, [])

/-- Run a list of events, accumulating the frames sent. -/
def run (c : Client) : List Event → Client × List Frame
  | [] => (c, [])
  | e :: rest =>
    let r := step c e
    let r' := run r.1 rest
    (r'.1, r.2 ++ r'.2)

/-- The manager at module initialisation. -/
def initMgr : WebSocketManager :=
  { sockets := [], ws := none, reconnectDelay := 1000, heartbeatInterval := none,
    reconnectTimeout := none, liveTimeouts := [], liveIntervals := [], nextTimerId := 1,
    subscribedSymbols := [], connected := false, onPriceUpdate := .nil,
    onMarketStatus := .nil, schedDelays := [] }

/-- The client at process start: no adapters mounted. -/
def initClient : Client :=
  { mgr := initMgr, priceAdapters := [], statusAdapters := [] }

/-! ## List index helpers -/

theorem get?_append_lt {α : Type} (l l2 : List α) (i : Nat) (h : i < l.length) :
    (l ++ l2).get? i = l.get? i := by
  induction l generalizing i with
  | nil => cases h
  | cons a t ih =>
    cases i with
    | zero => rfl
    | succ j => exact ih j (Nat.lt_of_succ_lt_succ h)

theorem get?_append_len {α : Type} (l : List α) (a : α) :
    (l ++ [a]).get? l.length = some a := by
  induction l with
  | nil => rfl
  | cons b t ih => exact ih

theorem get?_len_le {α : Type} (l : List α) (i : Nat) (h : l.length ≤ i) :
    l.get? i = none := by
  induction l generalizing i with
  | nil => rfl
  | cons a t ih =>
    cases i with
    | zero => cases h
    | succ j => exact ih j (Nat.le_of_succ_le_succ h)

theorem set_append_len {α : Type} (l : List α) (a b : α) :
    (l ++ [a]).set l.length b = l ++ [b] := by
  induction l with
  | nil => rfl
  | cons x t ih => simp [List.set, ih]

theorem get?_replicate {α : Type} (n i : Nat) (a : α) (h : i < n) :
    (List.replicate n a).get? i = some a := by
  induction n generalizing i with
  | zero => cases h
  | succ k ih =>
    cases i with
    | zero => rfl
    | succ j => exact ih j (Nat.lt_of_succ_lt_succ h)

/-! ## Which events mutate the subscribed-symbol set -/

/-- The events whose handler calls `subscribe` or `unsubscribe` (directly
or from an adapter activation). -/
def mutatesSubs : Event → Bool
  | .apiSubscribe _ => true
  | .apiUnsubscribe _ => true
  | .activatePrice _ => true
  | .deactivatePrice _ => true
  | _ => false

/-! ## Compositional lemmas about the manager operations -/

theorem get?_set_self {α : Type} (l : List α) (i : Nat) (a : α) (h : i < l.length) :
    (l.set i a).get? i = some a := by
  induction l generalizing i with
  | nil => cases h
  | cons x t ih =>
    cases i with
    | zero => rfl
    | succ j => exact ih j (Nat.lt_of_succ_lt_succ h)

theorem get?_some_lt {α : Type} (l : List α) (i : Nat) (a : α)
    (h : l.get? i = some a) : i < l.length := by
  by_cases hl : i < l.length
  · exact hl
  · rw [get?_len_le l i (Nat.le_of_not_lt hl)] at h
    cases h

theorem connect_connected (m : WebSocketManager) :
    m.connect.connected = m.connected := by
  unfold WebSocketManager.connect
  split <;> rfl

theorem connect_subscribedSymbols (m : WebSocketManager) :
    m.connect.subscribedSymbols = m.subscribedSymbols := by
  unfold WebSocketManager.connect
  split <;> rfl

theorem connect_readyState_opened (m : WebSocketManager) :
    (m.connect.readyState = some .opened) ↔ (m.readyState = some .opened) := by
  unfold WebSocketManager.connect
  split
  · exact Iff.rfl
  · rename_i hn
    have hlhs : ({ m with
        sockets := m.sockets ++ [.connecting],
        ws := some m.sockets.length } : WebSocketManager).readyState = some .connecting := by
      show (m.sockets ++ [SockState.connecting]).get? m.sockets.length
        = some SockState.connecting
      exact get?_append_len _ _
    rw [hlhs]
    constructor
    · intro h
      cases h
    · intro h
      exact absurd (Or.inl h) hn

theorem subscribe_frames (m : WebSocketManager) (syms : List String) :
    (m.subscribe syms).2 =
      (if m.connected = true ∧ m.readyState = some .opened
       then [Frame.subscribe syms] else []) := by
  unfold WebSocketManager.subscribe WebSocketManager.sendFrame
  by_cases hc : m.connected = true
  · by_cases hr : m.readyState = some .opened
    · simp [hc, hr]
    · simp [hc, hr]
  · simp [hc]

theorem subscribe_mgr (m : WebSocketManager) (syms : List String) :
    (m.subscribe syms).1 =
      { m with subscribedSymbols := syms.foldl jsSetAdd m.subscribedSymbols } := rfl

theorem unsubscribe_frames (m : WebSocketManager) (syms : List String) :
    (m.unsubscribe syms).2 =
      (if m.connected = true ∧ m.readyState = some .opened
       then [Frame.unsubscribe syms] else []) := by
  unfold WebSocketManager.unsubscribe WebSocketManager.sendFrame
  by_cases hc : m.connected = true
  · by_cases hr : m.readyState = some .opened
    · simp [hc, hr]
    · simp [hc, hr]
  · simp [hc]

theorem unsubscribe_mgr (m : WebSocketManager) (syms : List String) :
    (m.unsubscribe syms).1 =
      { m with subscribedSymbols := syms.foldl List.erase m.subscribedSymbols } := rfl

/-! ## C9: connect() is idempotent -/

/-- C9: `connect()` is idempotent: when the current transport is already
open or in the process of opening, the call is a no-op — no new transport
is created and no observable state (connection flag, backoff delay,
subscribed-symbol set, timers) changes, and no frame is sent. -/
theorem C9_connect_idempotent (c : Client)
    (h : c.mgr.readyState = some .opened ∨ c.mgr.readyState = some .connecting) :
    step c .apiConnect = (c, []) := by
  simp [step, WebSocketManager.connect, h]

/-- Witness for C9 at a concrete state with a connecting transport. -/
theorem C9_witness :
    (run initClient [.apiConnect]).1.mgr.readyState = some .connecting ∧
    step (run initClient [.apiConnect]).1 .apiConnect = ((run initClient [.apiConnect]).1, []) :=
  ⟨rfl, C9_connect_idempotent _ (Or.inr rfl)⟩

/-! ## C10: only subscribe/unsubscribe touch the subscribed-symbol set -/

/-- C10: `connect()`, `disconnect()`, and every transport open / close /
error / message event (as well as timer firings and status-adapter
activation) leave `subscribedSymbols` unchanged; only the
subscribe/unsubscribe paths mutate it, so the wanted set persists across
arbitrarily many disconnect/reconnect cycles. -/
theorem C10_subscribedSymbols_frame (c : Client) (e : Event)
    (h : mutatesSubs e = false) :
    (step c e).1.mgr.subscribedSymbols = c.mgr.subscribedSymbols := by
  cases e with
  | apiConnect =>
    simp only [step, WebSocketManager.connect]
    split <;> rfl
  | apiDisconnect => rfl
  | apiSubscribe s => simp [mutatesSubs] at h
  | apiUnsubscribe s => simp [mutatesSubs] at h
  | activatePrice s => simp [mutatesSubs] at h
  | deactivatePrice a => simp [mutatesSubs] at h
  | activateStatus =>
    simp only [step, WebSocketManager.connect]
    split <;> rfl
  | sockOpen i =>
    simp only [step, WebSocketManager.onopenH]
    split <;> rfl
  | sockClosed i =>
    simp only [step, WebSocketManager.oncloseH]
    split <;> rfl
  | sockError i => rfl
  | message i d =>
    simp only [step]
    split
    · unfold onmessageH
      cases d with
      | none => rfl
      | some msg =>
        simp only
        split
        · rfl
        · split <;> rfl
    · rfl
  | timerFire id =>
    simp only [step, WebSocketManager.reconnectBody, WebSocketManager.connect]
    split
    · split <;> rfl
    · rfl
  | heartbeatTick id =>
    simp only [step]
    split <;> rfl

/-- Witness for C10: a disconnect at a state with a non-empty wanted set
leaves the set unchanged. -/
theorem C10_witness :
    (step (run initClient [.apiSubscribe ["A"]]).1 .apiDisconnect).1.mgr.subscribedSymbols =
      (run initClient [.apiSubscribe ["A"]]).1.mgr.subscribedSymbols :=
  C10_subscribedSymbols_frame _ _ rfl

/-! ## C3: the behaviour of subscribe(symbols) -/

/-- The symbols of a `subscribe` call not already in the wanted set. -/
def newlyWanted (m : WebSocketManager) (syms : List String) : List String :=
  syms.filter (fun s => !(m.subscribedSymbols.contains s))

/-- The claim C3 as stated: `subscribe` adds each symbol; when connected it
sends one batched frame covering exactly the symbols whose interest
transitioned 0→1; when not connected it triggers `connect()` (observable
as a fresh transport when none exists). -/
def ClaimC3 : Prop := ∀ (c : Client) (syms : List String),
  (∀ s ∈ syms, s ∈ (step c (.apiSubscribe syms)).1.mgr.subscribedSymbols) ∧
  (c.mgr.connected = true →
    (step c (.apiSubscribe syms)).2 =
      (if newlyWanted c.mgr syms = [] then []
       else [Frame.subscribe (newlyWanted c.mgr syms)])) ∧
  (c.mgr.connected = false → c.mgr.ws = none →
    (step c (.apiSubscribe syms)).1.mgr.sockets.length = c.mgr.sockets.length + 1)

/-- Counterexample to C3: at process start (not connected, no transport),
`subscribe(["A"])` does not call `connect()` — no transport is created. -/
theorem C3_counterexample : ¬ ClaimC3 := fun h => by
  have h3 := (h initClient ["A"]).2.2 rfl rfl
  exact absurd h3 (by decide)

/-- C3 as amended: `subscribe(symbols)` adds every symbol to the wanted
set (JS-`Set` semantics); if `connected` and the transport is open it
sends one batched subscribe frame listing exactly the symbols passed —
including symbols already subscribed — and otherwise sends nothing; it
never calls `connect()` (the adapters call `connect()` themselves). -/
theorem C3_amended (c : Client) (syms : List String) :
    step c (.apiSubscribe syms) =
      ({ c with mgr := { c.mgr with
          subscribedSymbols := syms.foldl jsSetAdd c.mgr.subscribedSymbols } },
       if c.mgr.connected = true ∧ c.mgr.readyState = some .opened
       then [Frame.subscribe syms] else []) := by
  have h1 : (step c (.apiSubscribe syms)).1 = { c with mgr := (c.mgr.subscribe syms).1 } := rfl
  have h2 : (step c (.apiSubscribe syms)).2 = (c.mgr.subscribe syms).2 := rfl
  refine Prod.ext ?_ ?_
  · rw [h1, subscribe_mgr]
  · rw [h2, subscribe_frames]

/-! ## C1: disconnect() does not stop the reconnect machinery -/

/-- The failing execution for C1: connect, transport opens, caller invokes
`disconnect()`; the closed socket's `close` event then fires, and the
reconnect timeout it schedules fires. -/
def disconnectTrace : List Event :=
  [.apiConnect, .sockOpen 0, .apiDisconnect, .sockClosed 0, .timerFire 2]

/-- C1 is violated by the code: after `disconnect()` the handle is null
and the pending-timer list is empty, but the `close` event of the torn-down
socket still runs the `onclose` handler, which schedules a fresh reconnect
timeout (id 2); when it fires, `connect()` opens a brand-new transport —
a further connection attempt with no intervening `connect()` call. -/
theorem C1_disconnect_not_terminal :
    (run initClient [.apiConnect, .sockOpen 0, .apiDisconnect]).1.mgr.ws = none ∧
    (run initClient [.apiConnect, .sockOpen 0, .apiDisconnect]).1.mgr.liveTimeouts = [] ∧
    (run initClient [.apiConnect, .sockOpen 0, .apiDisconnect, .sockClosed 0]).1.mgr.liveTimeouts
      = [2] ∧
    (run initClient disconnectTrace).1.mgr.sockets.get? 1 = some .connecting ∧
    (run initClient disconnectTrace).1.mgr.ws = some 1 := by
  refine ⟨rfl, rfl, rfl, rfl, rfl⟩

/-! ## C2: reference counting of adapter interest -/

/-- Some mounted, still-active per-symbol adapter holds interest in `s`. -/
def wantsSym (c : Client) (s : String) : Bool :=
  c.priceAdapters.any (fun a => a.active && a.symbol == s)

/-- The claim C2 as stated, over every reachable state: a subscribe frame
for a symbol is sent only on a 0→1 interest transition, an unsubscribe
frame only when no active adapter still wants the symbol, and a symbol is
never removed from the wanted set while an active adapter holds interest. -/
def ClaimC2 : Prop := ∀ (evs : List Event) (s : String) (aid : Nat) (a : PriceAdapterState),
  (Frame.subscribe [s] ∈ (step (run initClient evs).1 (.activatePrice s)).2 →
    wantsSym (run initClient evs).1 s = false) ∧
  ((run initClient evs).1.priceAdapters.get? aid = some a →
    Frame.unsubscribe [a.symbol] ∈ (step (run initClient evs).1 (.deactivatePrice aid)).2 →
    wantsSym (step (run initClient evs).1 (.deactivatePrice aid)).1 a.symbol = false) ∧
  ((run initClient evs).1.priceAdapters.get? aid = some a →
    a.symbol ∈ (run initClient evs).1.mgr.subscribedSymbols →
    wantsSym (step (run initClient evs).1 (.deactivatePrice aid)).1 a.symbol = true →
    a.symbol ∈ (step (run initClient evs).1 (.deactivatePrice aid)).1.mgr.subscribedSymbols)

/-- Counterexample to C2: mount an adapter for "A", let the transport
open, mount a second adapter for "A" — the second activation sends another
subscribe frame for "A" although the interest count went 1→2, not 0→1. -/
theorem C2_counterexample : ¬ ClaimC2 := fun h => by
  have h1 := (h [.activatePrice "A", .sockOpen 0, .activatePrice "A"] "A" 0
    ⟨"A", ⟨none, none, none, false⟩, true⟩).1 (by decide)
  exact absurd h1 (by decide)

/-- C2 as amended: interest is a plain deduplicated set, not a reference
count. Activating an adapter for `s` always adds `s` and, when connected
with an open transport, sends a subscribe frame for `[s]` even when other
adapters already want `s`; deactivating an adapter removes its symbol from
the wanted set unconditionally and, when connected with an open transport,
sends an unsubscribe frame for it even when other active adapters still
want it. -/
theorem C2_amended :
    (∀ (c : Client) (s : String),
      (step c (.activatePrice s)).2 =
        (if c.mgr.connected = true ∧ c.mgr.readyState = some .opened
         then [Frame.subscribe [s]] else []) ∧
      (step c (.activatePrice s)).1.mgr.subscribedSymbols =
        jsSetAdd c.mgr.subscribedSymbols s) ∧
    (∀ (c : Client) (aid : Nat) (a : PriceAdapterState),
      c.priceAdapters.get? aid = some a → a.active = true →
      (step c (.deactivatePrice aid)).2 =
        (if c.mgr.connected = true ∧ c.mgr.readyState = some .opened
         then [Frame.unsubscribe [a.symbol]] else []) ∧
      (step c (.deactivatePrice aid)).1.mgr.subscribedSymbols =
        c.mgr.subscribedSymbols.erase a.symbol ∧
      (step c (.deactivatePrice aid)).1.priceAdapters =
        c.priceAdapters.set aid { a with active := false }) := by
  constructor
  · intro c s
    have hconn2 : (({ c.mgr.connect with
        onPriceUpdate := PUChain.price c.mgr.connect.onPriceUpdate c.priceAdapters.length } :
        WebSocketManager).connected) = c.mgr.connected := connect_connected c.mgr
    have hrs2 : (({ c.mgr.connect with
        onPriceUpdate := PUChain.price c.mgr.connect.onPriceUpdate c.priceAdapters.length } :
        WebSocketManager).readyState = some .opened) ↔ (c.mgr.readyState = some .opened) :=
      connect_readyState_opened c.mgr
    constructor
    · have h2 : (step c (.activatePrice s)).2 =
          (({ c.mgr.connect with
              onPriceUpdate := PUChain.price c.mgr.connect.onPriceUpdate c.priceAdapters.length } :
            WebSocketManager).subscribe [s]).2 := rfl
      rw [h2, subscribe_frames]
      by_cases hcond : c.mgr.connected = true ∧ c.mgr.readyState = some .opened
      · rw [if_pos ⟨hconn2.trans hcond.1, hrs2.mpr hcond.2⟩, if_pos hcond]
      · rw [if_neg (fun hand => hcond ⟨hconn2.symm.trans hand.1, hrs2.mp hand.2⟩),
          if_neg hcond]
    · have h1 : (step c (.activatePrice s)).1.mgr.subscribedSymbols =
          jsSetAdd c.mgr.connect.subscribedSymbols s := rfl
      rw [h1, connect_subscribedSymbols]
  · intro c aid a hget hact
    have hstep : step c (.deactivatePrice aid) =
        ({ c with
           mgr := (c.mgr.unsubscribe [a.symbol]).1,
           priceAdapters := c.priceAdapters.set aid { a with active := false } },
         (c.mgr.unsubscribe [a.symbol]).2) := by
      simp only [step, hget, hact]
      simp
    rw [hstep]
    refine ⟨unsubscribe_frames c.mgr [a.symbol], ?_, rfl⟩
    rw [show ((c.mgr.unsubscribe [a.symbol]).1).subscribedSymbols =
      [a.symbol].foldl List.erase c.mgr.subscribedSymbols from rfl]
    rfl

/-- Witness for C2's amended statement at a concrete two-adapter state:
deactivating adapter 0 removes "A" from the wanted set and sends an
unsubscribe frame although adapter 1 still wants "A". -/
theorem C2_witness :
    (step (run initClient [.activatePrice "A", .sockOpen 0, .activatePrice "A"]).1
        (.deactivatePrice 0)).2 = [Frame.unsubscribe ["A"]] ∧
    (step (run initClient [.activatePrice "A", .sockOpen 0, .activatePrice "A"]).1
        (.deactivatePrice 0)).1.mgr.subscribedSymbols = [] ∧
    wantsSym (step (run initClient [.activatePrice "A", .sockOpen 0, .activatePrice "A"]).1
        (.deactivatePrice 0)).1 "A" = true := by
  have h := (C2_amended.2 (run initClient
    [.activatePrice "A", .sockOpen 0, .activatePrice "A"]).1 0
    ⟨"A", ⟨none, none, none, false⟩, true⟩ rfl rfl)
  exact ⟨h.1.trans (by decide), h.2.1.trans (by decide), by decide⟩

/-! ## C5: full replay of the wanted set after reconnect -/

/-- The union of the interests of the live (still-active) adapters. -/
def adapterWanted (c : Client) : List String :=
  (c.priceAdapters.filter (fun a => a.active)).map (fun a => a.symbol)

/-- The claim C5 as stated: after every successful (re)connect whose
wanted set — the union of live adapters' interests — is non-empty, the
client sends a subscribe frame listing exactly that set. -/
def ClaimC5 : Prop := ∀ (evs : List Event) (i : Nat),
  (run initClient evs).1.mgr.sockets.get? i = some .connecting →
  adapterWanted (run initClient evs).1 ≠ [] →
  ∃ syms, (step (run initClient evs).1 (.sockOpen i)).2 = [Frame.subscribe syms] ∧
    ∀ s, s ∈ syms ↔ s ∈ adapterWanted (run initClient evs).1

/-- Counterexample to C5: two adapters want "A"; one deactivates (removing
"A" from the manager's set although the other still wants it); the
transport drops and the reconnect opens — the `onopen` replay sends no
frame at all even though the live adapter still wants "A". -/
theorem C5_counterexample : ¬ ClaimC5 := fun h => by
  obtain ⟨syms, hf, _⟩ := h [.activatePrice "A", .sockOpen 0, .activatePrice "A",
    .deactivatePrice 0, .sockClosed 0, .timerFire 2] 1 rfl (by decide)
  have hnil : ([] : List Frame) = [Frame.subscribe syms] := hf
  cases hnil

/-- C5 as amended: the `onopen` replay frame lists exactly the manager's
own `subscribedSymbols` set (the full set, never a partial one), which can
differ from the union of live adapters' interests because `unsubscribe`
removes symbols unconditionally; no frame is sent when that set is empty. -/
theorem onopenH_frames (m : WebSocketManager) :
    (m.onopenH).2 =
      (if 0 < m.subscribedSymbols.length ∧ m.readyState = some .opened
       then [Frame.subscribe m.subscribedSymbols] else []) := by
  unfold WebSocketManager.onopenH WebSocketManager.sendFrame
  by_cases hl : 0 < m.subscribedSymbols.length
  · by_cases hr : m.readyState = some .opened
    · simp [hl, hr]
    · simp [hl, hr]
  · simp [hl]

theorem C5_amended (c : Client) (i : Nat) (hws : c.mgr.ws = some i)
    (hconn : c.mgr.sockets.get? i = some .connecting) :
    (step c (.sockOpen i)).2 =
      (if 0 < c.mgr.subscribedSymbols.length
       then [Frame.subscribe c.mgr.subscribedSymbols] else []) ∧
    (step c (.sockOpen i)).1.mgr.subscribedSymbols = c.mgr.subscribedSymbols := by
  have hstep : step c (.sockOpen i) =
      ({ c with mgr := (WebSocketManager.onopenH
          { c.mgr with sockets := c.mgr.sockets.set i .opened }).1 },
       (WebSocketManager.onopenH
          { c.mgr with sockets := c.mgr.sockets.set i .opened }).2) := by
    simp only [step, hconn]
    simp
  have hlt : i < c.mgr.sockets.length := get?_some_lt _ _ _ hconn
  have hrs : ({ c.mgr with sockets := c.mgr.sockets.set i .opened } :
      WebSocketManager).readyState = some .opened := by
    show c.mgr.ws.bind (c.mgr.sockets.set i SockState.opened).get? = some SockState.opened
    rw [hws]
    show (c.mgr.sockets.set i SockState.opened).get? i = some SockState.opened
    exact get?_set_self _ _ _ hlt
  rw [hstep]
  refine ⟨?_, rfl⟩
  rw [onopenH_frames]
  by_cases hlen : 0 < c.mgr.subscribedSymbols.length
  · rw [if_pos ⟨hlen, hrs⟩, if_pos hlen]
  · rw [if_neg (fun hand => hlen hand.1), if_neg hlen]

/-- Witness for C5's amended statement: a connecting transport with "A"
wanted opens, and the replay frame lists the full set ["A"]. -/
theorem C5_witness :
    (step (run initClient [.activatePrice "A"]).1 (.sockOpen 0)).2 =
      [Frame.subscribe ["A"]] := by
  have h := C5_amended (run initClient [.activatePrice "A"]).1 0 rfl rfl
  exact h.1.trans (by decide)

/-! ## C7: malformed-frame tolerance -/

/-- The frame `type`s the dispatcher recognises. -/
def recognizedType (msg : Json) : Bool :=
  isStr (jget msg "type") "price_update" || isStr (jget msg "type") "market_status"

/-- A well-formed price update for "A". -/
def goodPriceFrame : Json :=
  .obj [("type", .str "price_update"), ("symbol", .str "A"),
        ("data", .obj [("price", .num 101), ("change", .num 2), ("volume", .num 500)])]

/-- A price update with the required `data` field missing. -/
def badPriceFrame : Json :=
  .obj [("type", .str "price_update"), ("symbol", .str "A")]

/-- A client with one adapter for "A" holding a cached record. -/
def sysC7 : Client :=
  (run initClient [.activatePrice "A", .sockOpen 0, .message 0 (some goodPriceFrame)]).1

/-- Running the price chain with `sym` undefined touches no adapter. -/
theorem runPU_noSym (ch : PUChain) (upd : Option Json) (t : List PriceAdapterState) :
    runPU ch none upd t = t := by
  induction ch with
  | nil => rfl
  | price prev aid ih =>
    show applyPriceCB aid none upd (runPU prev none upd t) = t
    rw [ih]
    unfold applyPriceCB
    cases h : t.get? aid with
    | none => rfl
    | some a => simp [symMatches]

/-- The claim C7 as stated: non-JSON input, JSON with an unrecognized
type, and a `price_update` missing `symbol` or `data` must leave every
adapter's cached state unchanged (and send nothing, throw nothing). -/
def ClaimC7 : Prop := ∀ (c : Client) (i : Nat) (v : Json),
  step c (.message i none) = (c, []) ∧
  (recognizedType v = false → step c (.message i (some v)) = (c, [])) ∧
  (isStr (jget v "type") "price_update" = true →
    (jget v "symbol" = none ∨ jget v "data" = none) →
    (step c (.message i (some v))).1.priceAdapters = c.priceAdapters ∧
    (step c (.message i (some v))).1.statusAdapters = c.statusAdapters ∧
    (step c (.message i (some v))).2 = [])

/-- Counterexample to C7: a `price_update` whose `symbol` matches a live
adapter but whose `data` field is missing makes the adapter's closure run
`setData({ ...undefined, connected: true })`, wiping its cached record —
the cached price "101" becomes undefined. -/
theorem C7_counterexample : ¬ ClaimC7 := fun h => by
  have h3 := ((h sysC7 0 badPriceFrame).2.2 rfl (Or.inr rfl)).1
  have hb := congrArg
    (fun l => (((l.get? 0).bind (fun a => a.data.price)).isSome : Bool)) h3
  exact absurd hb (by decide)

/-- C7 as amended: non-JSON input and unrecognized-type frames change
nothing; a `price_update` missing `symbol` also changes nothing; but a
`price_update` whose `symbol` matches a live adapter and whose `data` is
missing resets that adapter's cached record (all fields undefined,
`connected: true`) — still without throwing.  Demonstrated concretely on
`sysC7`. -/
theorem C7_amended :
    (∀ (c : Client) (i : Nat), step c (.message i none) = (c, [])) ∧
    (∀ (c : Client) (i : Nat) (v : Json), recognizedType v = false →
      step c (.message i (some v)) = (c, [])) ∧
    (∀ (c : Client) (i : Nat) (v : Json),
      isStr (jget v "type") "price_update" = true → jget v "symbol" = none →
      step c (.message i (some v)) = (c, [])) ∧
    (step sysC7 (.message 0 (some badPriceFrame))).1.priceAdapters =
      [⟨"A", ⟨none, none, none, true⟩, true⟩] := by
  refine ⟨?_, ?_, ?_, rfl⟩
  · intro c i
    simp only [step]
    split
    · rfl
    · rfl
  · intro c i v hrec
    have hp : isStr (jget v "type") "price_update" = false := by
      cases hps : isStr (jget v "type") "price_update" with
      | false => rfl
      | true => unfold recognizedType at hrec; rw [hps] at hrec; simp at hrec
    have hm : isStr (jget v "type") "market_status" = false := by
      cases hms : isStr (jget v "type") "market_status" with
      | false => rfl
      | true => unfold recognizedType at hrec; rw [hms] at hrec; simp at hrec
    simp only [step]
    split
    · show (onmessageH c (some v), []) = (c, [])
      unfold onmessageH
      simp [hp, hm]
    · rfl
  · intro c i v hp hsym
    have hm : isStr (jget v "type") "market_status" = false := by
      cases hj : jget v "type" with
      | none => rfl
      | some j =>
        cases j with
        | str s =>
          rw [hj] at hp
          have hs : s = "price_update" := by
            unfold isStr at hp
            exact eq_of_beq hp
          subst hs
          rfl
        | null => rfl
        | bool b => rfl
        | num n => rfl
        | arr l => rfl
        | obj l => rfl
    simp only [step]
    split
    · show (onmessageH c (some v), []) = (c, [])
      unfold onmessageH
      by_cases hnil : c.mgr.onPriceUpdate.isNil = true
      · simp [hp, hm, hnil]
      · simp [hp, hm, hnil, hsym, runPU_noSym]
    · rfl

/-- Witness for C7's amended statement: a non-object frame and a
`price_update` without `symbol` both leave the concrete client `sysC7`
unchanged. -/
theorem C7_witness :
    step sysC7 (.message 0 (some (Json.str "oops"))) = (sysC7, []) ∧
    step sysC7 (.message 0 (some (Json.obj [("type", Json.str "price_update")]))) =
      (sysC7, []) :=
  ⟨C7_amended.2.1 sysC7 0 _ rfl, C7_amended.2.2.1 sysC7 0 _ rfl rfl⟩

/-! ## C6: callback chaining and fan-out -/

/-- A market-status frame carrying the status "open". -/
def statusFrame : Json :=
  .obj [("type", .str "market_status"), ("data", .obj [("status", .str "open")])]

/-- A client with two price adapters ("A" and "B") and one status adapter
mounted simultaneously. -/
def sys6 : Client :=
  (run initClient [.activatePrice "A", .sockOpen 0, .activatePrice "B", .activateStatus]).1

/-- C6: registering a consumer callback chains onto (never replaces) the
previous one — dispatching through `price ch aid` first runs the whole
previous chain `ch`, likewise for status callbacks; with adapters for "A"
and "B" and a status adapter mounted together, the chains contain all
registrants, a price frame for "A" updates exactly the "A" adapter's
record, and a status frame updates exactly the status adapter. -/
theorem C6_callback_chaining :
    (∀ (ch : PUChain) (aid : Nat) (sym upd : Option Json) (t : List PriceAdapterState),
      runPU (PUChain.price ch aid) sym upd t = applyPriceCB aid sym upd (runPU ch sym upd t)) ∧
    (∀ (ch : MSChain) (aid : Nat) (s : Json) (t : List MarketStatusState),
      runMS (MSChain.status ch aid) s t = applyStatusCB aid s (runMS ch s t)) ∧
    sys6.mgr.onPriceUpdate = PUChain.price (PUChain.price PUChain.nil 0) 1 ∧
    sys6.mgr.onMarketStatus = MSChain.status MSChain.nil 0 ∧
    (step sys6 (.message 0 (some goodPriceFrame))).1.priceAdapters =
      [⟨"A", ⟨some (.num 101), some (.num 2), some (.num 500), true⟩, true⟩,
       ⟨"B", ⟨none, none, none, true⟩, true⟩] ∧
    (step sys6 (.message 0 (some goodPriceFrame))).1.statusAdapters =
      [⟨.str "unknown"⟩] ∧
    (step sys6 (.message 0 (some statusFrame))).1.statusAdapters = [⟨.str "open"⟩] ∧
    (step sys6 (.message 0 (some statusFrame))).1.priceAdapters = sys6.priceAdapters :=
  ⟨fun _ _ _ _ _ => rfl, fun _ _ _ _ => rfl, rfl, rfl, rfl, rfl, rfl, rfl⟩

/-! ## C8: at most one live transport -/

theorem get?_set_ne {α : Type} (l : List α) (i j : Nat) (a : α) (h : i ≠ j) :
    (l.set i a).get? j = l.get? j := by
  induction l generalizing i j with
  | nil => rfl
  | cons x t ih =>
    cases i with
    | zero =>
      cases j with
      | zero => exact absurd rfl h
      | succ n => rfl
    | succ k =>
      cases j with
      | zero => rfl
      | succ n => exact ih k n (fun he => h (by rw [he]))

theorem set_len_le {α : Type} (l : List α) (i : Nat) (a : α) (h : l.length ≤ i) :
    l.set i a = l := by
  induction l generalizing i with
  | nil => rfl
  | cons x t ih =>
    cases i with
    | zero => cases h
    | succ j => simp [List.set, ih j (Nat.le_of_succ_le_succ h)]

theorem closeSock_not_live (s : SockState) : liveState (closeSock s) = false := by
  cases s <;> rfl

/-- The single-live-transport invariant: every socket in a live state
(connecting or open) is the one the manager's handle points to. -/
def SockInv (m : WebSocketManager) : Prop :=
  ∀ i st, m.sockets.get? i = some st → liveState st = true → m.ws = some i

theorem sockInv_of_eq (m' m : WebSocketManager) (hws : m'.ws = m.ws)
    (hsk : m'.sockets = m.sockets) (h : SockInv m) : SockInv m' := by
  intro i st hget hlive
  rw [hws]
  rw [hsk] at hget
  exact h i st hget hlive

theorem sockInv_connect (m : WebSocketManager) (h : SockInv m) : SockInv m.connect := by
  unfold WebSocketManager.connect
  split
  · exact h
  · rename_i hn
    intro i st hget hlive
    show some m.sockets.length = some i
    rcases Nat.lt_trichotomy i m.sockets.length with hlt | heq | hgt
    · rw [get?_append_lt _ _ _ hlt] at hget
      have hws := h i st hget hlive
      have hrs : m.readyState = some st := by
        unfold WebSocketManager.readyState
        rw [hws]
        exact hget
      exfalso
      cases st with
      | connecting => exact hn (Or.inr hrs)
      | opened => exact hn (Or.inl hrs)
      | closing => cases hlive
      | closed => cases hlive
    · rw [heq]
    · have hlen : (m.sockets ++ [SockState.connecting]).length ≤ i := by
        rw [List.length_append]
        simpa using hgt
      rw [get?_len_le _ _ hlen] at hget
      cases hget

theorem sockInv_disconnect (m : WebSocketManager) (h : SockInv m) :
    SockInv m.disconnect := by
  intro i st hget hlive
  exfalso
  unfold WebSocketManager.disconnect at hget
  cases hw : m.ws with
  | none =>
    simp only [hw] at hget
    have := h i st hget hlive
    rw [hw] at this
    cases this
  | some j =>
    simp only [hw] at hget
    cases hg2 : m.sockets.get? j with
    | none =>
      simp only [hg2] at hget
      have := h i st hget hlive
      rw [hw] at this
      cases this
      rw [hg2] at hget
      cases hget
    | some stj =>
      simp only [hg2] at hget
      by_cases hij : j = i
      · subst hij
        have hlt : j < m.sockets.length := get?_some_lt _ _ _ hg2
        rw [get?_set_self _ _ _ hlt] at hget
        cases hget
        rw [closeSock_not_live] at hlive
        cases hlive
      · rw [get?_set_ne _ _ _ _ hij] at hget
        have := h i st hget hlive
        rw [hw] at this
        cases this
        exact hij rfl

theorem sockInv_set_closed (m : WebSocketManager) (i : Nat) (h : SockInv m) :
    SockInv { m with sockets := m.sockets.set i .closed } := by
  intro j st hget hlive
  show m.ws = some j
  by_cases hij : i = j
  · subst hij
    by_cases hlt : i < m.sockets.length
    · rw [get?_set_self _ _ _ hlt] at hget
      cases hget
      cases hlive
    · rw [set_len_le _ _ _ (Nat.le_of_not_lt hlt)] at hget
      exact h i st hget hlive
  · rw [get?_set_ne _ _ _ _ hij] at hget
    exact h j st hget hlive

theorem sockInv_set_opened (m : WebSocketManager) (i : Nat)
    (hc : m.sockets.get? i = some .connecting) (h : SockInv m) :
    SockInv { m with sockets := m.sockets.set i .opened } := by
  intro j st hget hlive
  show m.ws = some j
  by_cases hij : i = j
  · subst hij
    exact h i .connecting hc rfl
  · rw [get?_set_ne _ _ _ _ hij] at hget
    exact h j st hget hlive

theorem onmessageH_mgr (c : Client) (d : Option Json) : (onmessageH c d).mgr = c.mgr := by
  unfold onmessageH
  cases d with
  | none => rfl
  | some msg =>
    simp only
    split
    · rfl
    · split
      · rfl
      · rfl

/-- Every event preserves the single-live-transport invariant. -/
theorem sockInv_step (c : Client) (e : Event) (h : SockInv c.mgr) :
    SockInv (step c e).1.mgr := by
  cases e with
  | apiConnect => exact sockInv_connect _ h
  | apiDisconnect => exact sockInv_disconnect _ h
  | apiSubscribe syms => exact sockInv_of_eq _ _ rfl rfl h
  | apiUnsubscribe syms => exact sockInv_of_eq _ _ rfl rfl h
  | activatePrice s => exact sockInv_of_eq _ _ rfl rfl (sockInv_connect _ h)
  | deactivatePrice aid =>
    simp only [step]
    split
    · split
      · exact sockInv_of_eq _ _ rfl rfl h
      · exact h
    · exact h
  | activateStatus => exact sockInv_of_eq _ _ rfl rfl (sockInv_connect _ h)
  | sockOpen i =>
    simp only [step]
    split
    · rename_i hc
      exact sockInv_of_eq _ _ rfl rfl (sockInv_set_opened _ i hc h)
    · exact h
  | sockClosed i =>
    simp only [step]
    split
    · exact sockInv_of_eq _ _ rfl rfl (sockInv_set_closed _ i h)
    · exact h
  | sockError i => exact h
  | message i d =>
    simp only [step]
    split
    · exact sockInv_of_eq _ _ (by rw [onmessageH_mgr]) (by rw [onmessageH_mgr]) h
    · exact h
  | timerFire id =>
    simp only [step]
    split
    · show SockInv (WebSocketManager.reconnectBody _)
      unfold WebSocketManager.reconnectBody
      exact sockInv_connect _ (sockInv_of_eq _ _ rfl rfl h)
    · exact h
  | heartbeatTick id =>
    simp only [step]
    split
    · exact h
    · exact h

theorem sockInv_run (evs : List Event) : ∀ (c : Client), SockInv c.mgr →
    SockInv (run c evs).1.mgr := by
  induction evs with
  | nil => intro c h; exact h
  | cons e rest ih =>
    intro c h
    exact ih _ (sockInv_step c e h)

/-- C8: in every reachable state (any interleaving of API calls, socket
events and timer firings from process start), at most one live transport
exists: two sockets that are both open-or-opening are the same socket. -/
theorem C8_single_transport (evs : List Event) (i j : Nat) (si sj : SockState)
    (hi : (run initClient evs).1.mgr.sockets.get? i = some si) (hli : liveState si = true)
    (hj : (run initClient evs).1.mgr.sockets.get? j = some sj) (hlj : liveState sj = true) :
    i = j := by
  have hinv := sockInv_run evs initClient (fun i st hget _ => by cases hget)
  have h1 := hinv i si hi hli
  have h2 := hinv j sj hj hlj
  exact Option.some.inj (h1.symm.trans h2)

/-- Witness for C8 at a concrete reachable state with one connecting
socket. -/
theorem C8_witness :
    (run initClient [.apiConnect]).1.mgr.sockets.get? 0 = some .connecting ∧
    liveState .connecting = true ∧ (0 : Nat) = 0 :=
  ⟨rfl, rfl, C8_single_transport [.apiConnect] 0 0 .connecting .connecting rfl rfl rfl rfl⟩

/-! ## C4: the backoff sequence -/

/-- `k` consecutive failure cycles after a successful connect: the socket
of attempt `j` closes, then the scheduled reconnect timeout fires. -/
def failEvents : Nat → List Event
  | 0 => []
  | k+1 => failEvents k ++ [.sockClosed k, .timerFire (k+2)]

/-- The state right after the initial connect succeeds. -/
def postOpen : Client := (run initClient [.apiConnect, .sockOpen 0]).1

/-- The closed form of the manager state after `k+1` failure cycles from
`postOpen`. -/
def cycleMgr (k : Nat) : WebSocketManager :=
  { sockets := List.replicate (k+1) .closed ++ [.connecting], ws := some (k+1),
    reconnectDelay := min (1000 * 2^(k+1)) 30000,
    heartbeatInterval := some 1, liveIntervals := [], reconnectTimeout := some (k+2),
    liveTimeouts := [], nextTimerId := k+3, subscribedSymbols := [], connected := false,
    onPriceUpdate := .nil, onMarketStatus := .nil,
    schedDelays := (List.range (k+1)).map (fun j => min (1000 * 2^j) 30000) }

def cycleClient (k : Nat) : Client :=
  { mgr := cycleMgr k, priceAdapters := [], statusAdapters := [] }

/-- Intermediate state inside a cycle: after the close event, before the
timer fires. -/
def midMgr (k : Nat) : WebSocketManager :=
  { sockets := List.replicate (k+2) .closed, ws := some (k+1),
    reconnectDelay := min (1000 * 2^(k+1)) 30000,
    heartbeatInterval := some 1, liveIntervals := [], reconnectTimeout := some (k+3),
    liveTimeouts := [k+3], nextTimerId := k+4, subscribedSymbols := [], connected := false,
    onPriceUpdate := .nil, onMarketStatus := .nil,
    schedDelays := (List.range (k+2)).map (fun j => min (1000 * 2^j) 30000) }

theorem doubling_min (a : Nat) : min (min a 30000 * 2) 30000 = min (a * 2) 30000 := by
  rcases Nat.le_total a 30000 with h | h
  · rw [Nat.min_eq_left h]
  · rw [Nat.min_eq_right h]
    rw [show min (30000 * 2) 30000 = 30000 from rfl]
    rw [Nat.min_eq_right (by omega : 30000 ≤ a * 2)]

theorem run_append (c : Client) (l1 l2 : List Event) :
    (run c (l1 ++ l2)).1 = (run (run c l1).1 l2).1 := by
  induction l1 generalizing c with
  | nil => rfl
  | cons e rest ih => exact ih (step c e).1

theorem connect_new_of_closed (m : WebSocketManager) (i : Nat) (hws : m.ws = some i)
    (hst : m.sockets.get? i = some .closed) :
    m.connect = { m with sockets := m.sockets ++ [.connecting],
                         ws := some m.sockets.length } := by
  have hrs : m.readyState = some SockState.closed := by
    unfold WebSocketManager.readyState
    rw [hws]
    exact hst
  unfold WebSocketManager.connect
  rw [if_neg (fun hor => by rw [hrs] at hor; rcases hor with h | h <;> cases h)]

theorem cycle_close (k : Nat) :
    (step (cycleClient k) (.sockClosed (k+1))).1 =
      { mgr := midMgr k, priceAdapters := [], statusAdapters := [] } := by
  have hgetc : (cycleClient k).mgr.sockets.get? (k+1) = some SockState.connecting := by
    show (List.replicate (k+1) SockState.closed ++ [SockState.connecting]).get? (k+1)
      = some SockState.connecting
    have h0 := get?_append_len (List.replicate (k+1) SockState.closed) SockState.connecting
    rw [List.length_replicate] at h0
    exact h0
  have hset : (List.replicate (k+1) SockState.closed ++ [SockState.connecting]).set (k+1)
      SockState.closed = List.replicate (k+2) SockState.closed := by
    have h1 := set_append_len (List.replicate (k+1) SockState.closed) SockState.connecting
      SockState.closed
    simp only [List.length_replicate] at h1
    rw [h1, ← List.replicate_succ']
  simp only [step]
  rw [hgetc, if_pos (show canFireClose (some SockState.connecting) = true from rfl)]
  have hm : WebSocketManager.oncloseH
      { (cycleClient k).mgr with
        sockets := (cycleClient k).mgr.sockets.set (k+1) SockState.closed }
      = midMgr k := by
    unfold cycleClient cycleMgr WebSocketManager.oncloseH midMgr
    simp only [hset, List.range_succ, List.map_append]
    rfl
  rw [hm]
  rfl

theorem cycle_fire (k : Nat) :
    (step ({ mgr := midMgr k, priceAdapters := [], statusAdapters := [] } : Client)
      (.timerFire (k+3))).1 = cycleClient (k+1) := by
  have hmem : (k+3) ∈ (midMgr k).liveTimeouts := by
    show (k+3) ∈ [k+3]
    exact List.mem_singleton.mpr rfl
  have herase : (midMgr k).liveTimeouts.erase (k+3) = [] := by
    show [k+3].erase (k+3) = []
    simp
  simp only [step]
  rw [if_pos hmem]
  have hbody : WebSocketManager.reconnectBody
      { midMgr k with liveTimeouts := (midMgr k).liveTimeouts.erase (k+3) }
      = cycleMgr (k+1) := by
    rw [herase]
    unfold WebSocketManager.reconnectBody
    rw [connect_new_of_closed _ (k+1) rfl
      (get?_replicate (k+2) (k+1) SockState.closed (by omega))]
    unfold midMgr cycleMgr
    simp [WebSocketManager.mk.injEq, List.length_replicate]
    rw [doubling_min]
    conv_rhs => rw [pow_succ]
    rw [← mul_assoc]
  rw [hbody]
  rfl

/-- After `k+1` failure cycles the client is exactly `cycleClient k`. -/
theorem run_failEvents (k : Nat) :
    (run postOpen (failEvents (k+1))).1 = cycleClient k := by
  induction k with
  | zero => rfl
  | succ n ih =>
    show (run postOpen (failEvents (n+1) ++ [.sockClosed (n+1), .timerFire (n+3)])).1 = _
    rw [run_append, ih]
    show (run (step (cycleClient n) (.sockClosed (n+1))).1 [.timerFire (n+3)]).1 = _
    rw [cycle_close]
    show (step ({ mgr := midMgr n, priceAdapters := [], statusAdapters := [] } : Client)
      (.timerFire (n+3))).1 = _
    rw [cycle_fire]

/-- C4: starting from a successful connect, the reconnect delay scheduled
before attempt `k` (the `k`-th entry of the log of durations handed to the
reconnect timer) equals `min (1000 * 2^(k-1)) 30000`; the sequence is
non-decreasing; and every transport `open` event resets the backoff delay
to the floor, so the next failure starts again at 1000 ms. -/
theorem C4_backoff :
    (∀ k : Nat, (run postOpen (failEvents k)).1.mgr.schedDelays =
      (List.range k).map (fun j => min (1000 * 2^j) 30000)) ∧
    (∀ k : Nat, List.Chain' (fun a b => a ≤ b)
      ((run postOpen (failEvents k)).1.mgr.schedDelays)) ∧
    (∀ (c : Client) (i : Nat), c.mgr.sockets.get? i = some .connecting →
      (step c (.sockOpen i)).1.mgr.reconnectDelay = 1000) := by
  have hsched : ∀ k : Nat, (run postOpen (failEvents k)).1.mgr.schedDelays =
      (List.range k).map (fun j => min (1000 * 2^j) 30000) := by
    intro k
    cases k with
    | zero => rfl
    | succ n =>
      rw [run_failEvents]
      rfl
  refine ⟨hsched, ?_, ?_⟩
  · intro k
    rw [hsched k]
    refine List.Pairwise.chain' ?_
    refine (List.pairwise_le_range k).map _ ?_
    intro a b hab
    exact min_le_min
      (Nat.mul_le_mul_left _ (Nat.pow_le_pow_right (by omega) hab)) (le_refl _)
  · intro c i hc
    simp only [step, hc]
    rw [if_pos trivial]
    rfl

/-- Witness for C4's reset clause: the open event of the very first
transport sets the backoff delay to the floor. -/
theorem C4_witness :
    (step (run initClient [.apiConnect]).1 (.sockOpen 0)).1.mgr.reconnectDelay = 1000 :=
  C4_backoff.2.2 (run initClient [.apiConnect]).1 0 rfl

end FinSight
